import Mathlib

/-
Verification of the aristotle-mcp tool adapter (src/main.py).

The adapter wraps an external proving client. Every interaction with the
external client (submission returning a project id, fetching a project by id,
retrieving a solution artifact, writing a file) is a parameter of the embedded
operation: the claims are universally quantified over the client's behaviour,
exactly as the spec's "client double" scenarios require. The module-level
mutable set `monitored_projects` is threaded explicitly as a `Finset String`.
Python dicts (later serialized with json.dumps) are modelled as association
lists in insertion order; file writes performed by an operation are returned
as a list of (path, content) pairs; a delegate invocation count records how
many times the external submission client was called.
-/

namespace Aristotle

/-- Status enumeration of a project, as consumed from the external client
(spec section 3: submitted / running / complete / failed). -/
inductive ProjectStatus
  | SUBMITTED
  | RUNNING
  | COMPLETE
  | FAILED
  deriving DecidableEq

/-- The `.value` attribute of the status enumeration. -/
def ProjectStatus.value : ProjectStatus → String
  | .SUBMITTED => "submitted"
  | .RUNNING => "running"
  | .COMPLETE => "complete"
  | .FAILED => "failed"

/-- A timestamp as held by the external client: `iso` is its
`isoformat()` rendering, `text` its `str()` rendering. -/
structure Timestamp where
  iso : String
  text : String

/-- View of an external Project object, with exactly the attributes the
adapter consumes (src/main.py lines 77-84). -/
structure Project where
  project_id : String
  status : ProjectStatus
  created_at : Timestamp
  last_updated_at : Timestamp
  file_name : String
  description : String

/-- Outcome of the external client's solution retrieval
(`project.get_solution(output_path)`): it may raise with a message, complete
without producing the output file, or produce the file with some content. -/
inductive FetchOutcome
  | raises (msg : String)
  | noop
  | yields (content : String)

/-- `prove_lean_file` (src/main.py lines 14-37). `fs` is the filesystem
existence test, `pid` the project id the external client returns on
submission, `monitored` the monitored-project set before the call. Returns
the result (error or message plus new monitored set) paired with the number
of delegate (client submission) invocations performed. -/
def prove_lean_file (fs : String → Bool) (file_path : String) (pid : String)
    (monitored : Finset String) : Except String (String × Finset String) × Nat :=
  if fs file_path then
    (Except.ok ("Project started with ID: " ++ pid ++
      ". You will be notified when it completes.", insert pid monitored), 1)
  else
    (Except.error ("File not found: " ++ file_path), 0)

/-- `prove_informal` (src/main.py lines 39-64); the optional formal context
path is forwarded to the delegate and does not affect the adapter logic. -/
def prove_informal (fs : String → Bool) (file_path : String)
    (formal_context_path : Option String) (pid : String)
    (monitored : Finset String) : Except String (String × Finset String) × Nat :=
  if fs file_path then
    (Except.ok ("Project started with ID: " ++ pid ++
      ". You will be notified when it completes.", insert pid monitored), 1)
  else
    (Except.error ("File not found: " ++ file_path), 0)

/-- `prove_lean_code` (src/main.py lines 126-145): no file check, always
one delegate invocation. -/
def prove_lean_code (lean_code : String) (pid : String)
    (monitored : Finset String) : (String × Finset String) × Nat :=
  (("Project started with ID: " ++ pid ++ ".", insert pid monitored), 1)

/-- `prove_informal_text` (src/main.py lines 147-168). -/
def prove_informal_text (text : String) (formal_context_path : Option String)
    (pid : String) (monitored : Finset String) : (String × Finset String) × Nat :=
  (("Project started with ID: " ++ pid ++ ".", insert pid monitored), 1)

/-- The status-metadata dict built by both `get_project_status` and the
project resource (src/main.py lines 77-84 and 192-199), in insertion order. -/
def baseData (project : Project) : List (String × String) :=
  [("project_id", project.project_id),
   ("status", project.status.value),
   ("created_at", project.created_at.iso),
   ("last_updated_at", project.last_updated_at.iso),
   ("file_name", project.file_name),
   ("description", project.description)]

/-- `get_project_status` (src/main.py lines 66-102), given the fetched
project, the outcome of solution retrieval, the optional save path, the
outcome `writeRes` of the write to the save path (if attempted), and the
path-absolutization function `absPath`. Returns the response dict (which is
then json.dumps'ed) together with the list of persistent file writes
performed. The Python try/except that downgrades retrieval and write
failures to a `solution_error` field is reflected in the branch structure:
the function is total, mirroring that the call never raises for
solution-retrieval failure. -/
def get_project_statusData (project : Project) (fetch : FetchOutcome)
    (save_solution_to : Option String) (writeRes : Except String Unit)
    (absPath : String → String) :
    List (String × String) × List (String × String) :=
  let data := baseData project
  if project.status = ProjectStatus.COMPLETE then
    match fetch with
    | .raises m => (data ++ [("solution_error", m)], [])
    | .noop => (data, [])
    | .yields t =>
      let data := data ++ [("solution", t)]
      match save_solution_to with
      | none => (data, [])
      | some p =>
        match writeRes with
        | .ok _ => (data ++ [("saved_to", absPath p)], [(p, t)])
        | .error m => (data ++ [("solution_error", m)], [])
  else (data, [])

/-- The project-by-id resource (src/main.py lines 187-212): same as
`get_project_status` but with no save-path support. -/
def get_project_resourceData (project : Project) (fetch : FetchOutcome) :
    List (String × String) :=
  let data := baseData project
  if project.status = ProjectStatus.COMPLETE then
    match fetch with
    | .raises m => data ++ [("solution_error", m)]
    | .noop => data
    | .yields t => data ++ [("solution", t)]
  else data

/-- One listing line of `list_recent_projects` (src/main.py line 116). -/
def projectLine (p : Project) : String :=
  "Project: " ++ p.project_id ++ ", Status: " ++ p.status.value ++
    ", Created: " ++ p.created_at.text

/-- `list_recent_projects` (src/main.py lines 104-124), given the project
list the external client returned for the requested limit. Returns the reply
string and the list of file writes performed. -/
def list_recent_projects (projects : List Project) (save_to : Option String) :
    String × List (String × String) :=
  let result := String.intercalate "\n" (projects.map projectLine)
  match save_to with
  | some sp => ("Project list saved to " ++ sp, [(sp, result)])
  | none => (result, [])

/-- One row of the projects listing resource (src/main.py lines 175-184). -/
def listResourceRow (p : Project) : List (String × String) :=
  [("project_id", p.project_id),
   ("status", p.status.value),
   ("created_at", p.created_at.iso),
   ("file_name", p.file_name),
   ("description", p.description)]

/-- The projects listing resource (src/main.py lines 170-185). -/
def list_projects_resourceData (projects : List Project) :
    List (List (String × String)) :=
  projects.map listResourceRow

/-- Every operation of the adapter (each tool and each resource), with the
external-client behaviour it observes as constructor arguments. -/
inductive Op
  | proveLeanFile (fs : String → Bool) (file_path : String) (pid : String)
  | proveInformal (fs : String → Bool) (file_path : String)
      (formal_context_path : Option String) (pid : String)
  | proveLeanCode (lean_code : String) (pid : String)
  | proveInformalText (text : String) (formal_context_path : Option String)
      (pid : String)
  | getProjectStatus (project : Project) (fetch : FetchOutcome)
      (save_solution_to : Option String) (writeRes : Except String Unit)
  | listRecentProjects (projects : List Project) (save_to : Option String)
  | listProjectsResource (projects : List Project)
  | getProjectResource (project : Project) (fetch : FetchOutcome)

/-- Effect of one adapter operation on the monitored-project set. Only the
four submission tools touch `monitored_projects` in src/main.py (lines 36,
63, 144, 167); every other operation leaves the module-level set untouched. -/
def runOp : Op → Finset String → Finset String
  | .proveLeanFile fs fp pid, s =>
    match (prove_lean_file fs fp pid s).fst with
    | .ok r => r.snd
    | .error _ => s
  | .proveInformal fs fp c pid, s =>
    match (prove_informal fs fp c pid s).fst with
    | .ok r => r.snd
    | .error _ => s
  | .proveLeanCode code pid, s => ((prove_lean_code code pid s).fst).snd
  | .proveInformalText t c pid, s => ((prove_informal_text t c pid s).fst).snd
  | .getProjectStatus _ _ _ _, s => s
  | .listRecentProjects _ _, s => s
  | .listProjectsResource _, s => s
  | .getProjectResource _ _, s => s

/-- C1: for every submission operation, given a valid input, the returned
string contains the exact project identifier returned by the external
client's submit call, and that identifier is a member of the monitored-project
set immediately after the call returns. -/
theorem submission_returns_id_and_monitors
    (fs : String → Bool) (fp : String) (c : Option String)
    (pid code txt : String) (s : Finset String) (h : fs fp = true) :
    (∃ msg s2, (prove_lean_file fs fp pid s).fst = Except.ok (msg, s2) ∧
      (∃ a b, msg = a ++ pid ++ b) ∧ pid ∈ s2) ∧
    (∃ msg s2, (prove_informal fs fp c pid s).fst = Except.ok (msg, s2) ∧
      (∃ a b, msg = a ++ pid ++ b) ∧ pid ∈ s2) ∧
    ((∃ a b, ((prove_lean_code code pid s).fst).fst = a ++ pid ++ b) ∧
      pid ∈ ((prove_lean_code code pid s).fst).snd) ∧
    ((∃ a b, ((prove_informal_text txt c pid s).fst).fst = a ++ pid ++ b) ∧
      pid ∈ ((prove_informal_text txt c pid s).fst).snd) := by
  refine ⟨⟨"Project started with ID: " ++ pid ++
      ". You will be notified when it completes.", insert pid s,
      by simp [prove_lean_file, h], ⟨"Project started with ID: ",
      ". You will be notified when it completes.", rfl⟩,
      Finset.mem_insert_self pid s⟩,
    ⟨"Project started with ID: " ++ pid ++
      ". You will be notified when it completes.", insert pid s,
      by simp [prove_informal, h], ⟨"Project started with ID: ",
      ". You will be notified when it completes.", rfl⟩,
      Finset.mem_insert_self pid s⟩,
    ⟨⟨"Project started with ID: ", ".", rfl⟩, Finset.mem_insert_self pid s⟩,
    ⟨⟨"Project started with ID: ", ".", rfl⟩, Finset.mem_insert_self pid s⟩⟩

/-- Witness for C1 at a concrete input. -/
theorem submission_returns_id_and_monitors_witness :
    ((fun _ : String => true) "a.lean" = true) ∧
    ((∃ msg s2,
        (prove_lean_file (fun _ => true) "a.lean" "P1" ∅).fst =
          Except.ok (msg, s2) ∧
        (∃ a b, msg = a ++ "P1" ++ b) ∧ "P1" ∈ s2) ∧
     (∃ msg s2,
        (prove_informal (fun _ => true) "a.lean" none "P1" ∅).fst =
          Except.ok (msg, s2) ∧
        (∃ a b, msg = a ++ "P1" ++ b) ∧ "P1" ∈ s2) ∧
     ((∃ a b, ((prove_lean_code "c" "P1" ∅).fst).fst = a ++ "P1" ++ b) ∧
        "P1" ∈ ((prove_lean_code "c" "P1" ∅).fst).snd) ∧
     ((∃ a b, ((prove_informal_text "t" none "P1" ∅).fst).fst = a ++ "P1" ++ b) ∧
        "P1" ∈ ((prove_informal_text "t" none "P1" ∅).fst).snd)) :=
  ⟨rfl, submission_returns_id_and_monitors
    (fun _ => true) "a.lean" none "P1" "c" "t" ∅ rfl⟩

/-- C4: for the file-based submission operations, a nonexistent path fails
with a file-not-found error, with zero delegate invocations (the external
client is never called) — src/main.py lines 23-25 and 49-51. -/
theorem missing_file_fails_fast
    (fs : String → Bool) (fp : String) (c : Option String)
    (pid pid2 : String) (s : Finset String) (h : fs fp = false) :
    prove_lean_file fs fp pid s =
      (Except.error ("File not found: " ++ fp), 0) ∧
    prove_informal fs fp c pid2 s =
      (Except.error ("File not found: " ++ fp), 0) := by
  simp [prove_lean_file, prove_informal, h]

/-- Witness for C4 at a concrete input. -/
theorem missing_file_fails_fast_witness :
    ((fun _ : String => false) "missing.lean" = false) ∧
    (prove_lean_file (fun _ => false) "missing.lean" "P1" ∅ =
      (Except.error ("File not found: " ++ "missing.lean"), 0) ∧
     prove_informal (fun _ => false) "missing.lean" none "P2" ∅ =
      (Except.error ("File not found: " ++ "missing.lean"), 0)) :=
  ⟨rfl, missing_file_fails_fast (fun _ => false) "missing.lean" none "P1" "P2" ∅ rfl⟩

/-- C8: the monitored-project set is append-only: for every operation of the
adapter, the set after the operation is a superset of the set before it. -/
theorem monitored_append_only (op : Op) (s : Finset String) :
    s ⊆ runOp op s := by
  cases op with
  | proveLeanFile fs fp pid =>
    by_cases hfs : fs fp
    · simp [runOp, prove_lean_file, hfs, Finset.subset_insert]
    · simp [runOp, prove_lean_file, hfs]
  | proveInformal fs fp c pid =>
    by_cases hfs : fs fp
    · simp [runOp, prove_informal, hfs, Finset.subset_insert]
    · simp [runOp, prove_informal, hfs]
  | proveLeanCode code pid =>
    simp [runOp, prove_lean_code, Finset.subset_insert]
  | proveInformalText t c pid =>
    simp [runOp, prove_informal_text, Finset.subset_insert]
  | getProjectStatus p f sv w => simp [runOp]
  | listRecentProjects ps sv => simp [runOp]
  | listProjectsResource ps => simp [runOp]
  | getProjectResource p f => simp [runOp]

/-- C2: for the status tool and the project resource, when the project is
COMPLETE and solution retrieval raises with message m, the call does not
raise (the functions are total) and the response still carries every
status-metadata field plus a solution error field equal to m. -/
theorem solution_error_degrades
    (project : Project) (m : String) (save : Option String)
    (w : Except String Unit) (a : String → String)
    (h : project.status = ProjectStatus.COMPLETE) :
    let d := (get_project_statusData project (.raises m) save w a).fst
    let r := get_project_resourceData project (.raises m)
    d.lookup "project_id" = some project.project_id ∧
    d.lookup "status" = some project.status.value ∧
    d.lookup "created_at" = some project.created_at.iso ∧
    d.lookup "last_updated_at" = some project.last_updated_at.iso ∧
    d.lookup "file_name" = some project.file_name ∧
    d.lookup "description" = some project.description ∧
    d.lookup "solution_error" = some m ∧
    r.lookup "project_id" = some project.project_id ∧
    r.lookup "status" = some project.status.value ∧
    r.lookup "created_at" = some project.created_at.iso ∧
    r.lookup "last_updated_at" = some project.last_updated_at.iso ∧
    r.lookup "file_name" = some project.file_name ∧
    r.lookup "description" = some project.description ∧
    r.lookup "solution_error" = some m := by
  simp only [get_project_statusData.eq_def, get_project_resourceData.eq_def,
    if_pos h]
  exact ⟨rfl, rfl, rfl, rfl, rfl, rfl, rfl, rfl, rfl, rfl, rfl, rfl, rfl, rfl⟩

/-- Witness for C2 at a concrete input. -/
theorem solution_error_degrades_witness :
    (Project.mk "P1" ProjectStatus.COMPLETE (Timestamp.mk "i1" "t1")
        (Timestamp.mk "i2" "t2") "f.lean" "d").status =
      ProjectStatus.COMPLETE ∧
    (let d := (get_project_statusData
        (Project.mk "P1" ProjectStatus.COMPLETE (Timestamp.mk "i1" "t1")
          (Timestamp.mk "i2" "t2") "f.lean" "d")
        (.raises "disk full") none (Except.ok ()) id).fst
     let r := get_project_resourceData
        (Project.mk "P1" ProjectStatus.COMPLETE (Timestamp.mk "i1" "t1")
          (Timestamp.mk "i2" "t2") "f.lean" "d") (.raises "disk full")
     d.lookup "project_id" = some "P1" ∧
     d.lookup "status" = some "complete" ∧
     d.lookup "created_at" = some "i1" ∧
     d.lookup "last_updated_at" = some "i2" ∧
     d.lookup "file_name" = some "f.lean" ∧
     d.lookup "description" = some "d" ∧
     d.lookup "solution_error" = some "disk full" ∧
     r.lookup "project_id" = some "P1" ∧
     r.lookup "status" = some "complete" ∧
     r.lookup "created_at" = some "i1" ∧
     r.lookup "last_updated_at" = some "i2" ∧
     r.lookup "file_name" = some "f.lean" ∧
     r.lookup "description" = some "d" ∧
     r.lookup "solution_error" = some "disk full") :=
  ⟨rfl, solution_error_degrades
    (Project.mk "P1" ProjectStatus.COMPLETE (Timestamp.mk "i1" "t1")
      (Timestamp.mk "i2" "t2") "f.lean" "d")
    "disk full" none (Except.ok ()) id rfl⟩

/-- C3: for the status tool and the project resource, when the project is
COMPLETE and retrieval yields solution text t, the solution field equals t
exactly; when the status is anything other than COMPLETE, the response has
no solution field and no solution error field, whatever the retrieval
outcome would have been. -/
theorem solution_field_exact
    (project : Project) (t : String) (save : Option String)
    (w : Except String Unit) (a : String → String) (f : FetchOutcome) :
    (project.status = ProjectStatus.COMPLETE →
      (get_project_statusData project (.yields t) save w a).fst.lookup
          "solution" = some t ∧
      (get_project_resourceData project (.yields t)).lookup
          "solution" = some t) ∧
    (project.status ≠ ProjectStatus.COMPLETE →
      (get_project_statusData project f save w a).fst.lookup
          "solution" = none ∧
      (get_project_statusData project f save w a).fst.lookup
          "solution_error" = none ∧
      (get_project_resourceData project f).lookup "solution" = none ∧
      (get_project_resourceData project f).lookup "solution_error" = none) := by
  constructor
  · intro h
    simp only [get_project_statusData.eq_def, get_project_resourceData.eq_def,
      if_pos h]
    refine ⟨?_, rfl⟩
    cases save with
    | none => rfl
    | some p => cases w with
      | ok u => rfl
      | error m => rfl
  · intro h
    simp only [get_project_statusData.eq_def, get_project_resourceData.eq_def,
      if_neg h]
    exact ⟨rfl, rfl, rfl, rfl⟩

/-- Witness for C3 at concrete inputs (a COMPLETE project for the first
conjunct; the implication hypotheses are discharged on a COMPLETE project,
whose negated-hypothesis branch is vacuous, exercised via a RUNNING project
in the statement). -/
theorem solution_field_exact_witness :
    ((Project.mk "P2" ProjectStatus.RUNNING (Timestamp.mk "i1" "t1")
        (Timestamp.mk "i2" "t2") "f.lean" "d").status ≠
      ProjectStatus.COMPLETE) ∧
    ((get_project_statusData
        (Project.mk "P2" ProjectStatus.RUNNING (Timestamp.mk "i1" "t1")
          (Timestamp.mk "i2" "t2") "f.lean" "d")
        (.yields "theorem foo := trivial") none (Except.ok ()) id).fst.lookup
        "solution" = none ∧
     (get_project_statusData
        (Project.mk "P2" ProjectStatus.RUNNING (Timestamp.mk "i1" "t1")
          (Timestamp.mk "i2" "t2") "f.lean" "d")
        (.yields "theorem foo := trivial") none (Except.ok ()) id).fst.lookup
        "solution_error" = none ∧
     (get_project_resourceData
        (Project.mk "P2" ProjectStatus.RUNNING (Timestamp.mk "i1" "t1")
          (Timestamp.mk "i2" "t2") "f.lean" "d")
        (.yields "theorem foo := trivial")).lookup "solution" = none ∧
     (get_project_resourceData
        (Project.mk "P2" ProjectStatus.RUNNING (Timestamp.mk "i1" "t1")
          (Timestamp.mk "i2" "t2") "f.lean" "d")
        (.yields "theorem foo := trivial")).lookup "solution_error" = none) ∧
    ((get_project_statusData
        (Project.mk "P1" ProjectStatus.COMPLETE (Timestamp.mk "i1" "t1")
          (Timestamp.mk "i2" "t2") "f.lean" "d")
        (.yields "theorem foo := trivial") none (Except.ok ()) id).fst.lookup
        "solution" = some "theorem foo := trivial" ∧
     (get_project_resourceData
        (Project.mk "P1" ProjectStatus.COMPLETE (Timestamp.mk "i1" "t1")
          (Timestamp.mk "i2" "t2") "f.lean" "d")
        (.yields "theorem foo := trivial")).lookup "solution" =
        some "theorem foo := trivial") :=
  ⟨by decide,
   (solution_field_exact
     (Project.mk "P2" ProjectStatus.RUNNING (Timestamp.mk "i1" "t1")
       (Timestamp.mk "i2" "t2") "f.lean" "d")
     "theorem foo := trivial" none (Except.ok ()) id
     (.yields "theorem foo := trivial")).2 (by decide),
   (solution_field_exact
     (Project.mk "P1" ProjectStatus.COMPLETE (Timestamp.mk "i1" "t1")
       (Timestamp.mk "i2" "t2") "f.lean" "d")
     "theorem foo := trivial" none (Except.ok ()) id
     (.yields "theorem foo := trivial")).1 rfl⟩

/-- With no save path, the status tool builds exactly the resource's dict. -/
theorem statusData_save_none (p : Project) (f : FetchOutcome)
    (w : Except String Unit) (a : String → String) :
    (get_project_statusData p f none w a).fst =
      get_project_resourceData p f := by
  by_cases h : p.status = ProjectStatus.COMPLETE
  · simp only [get_project_statusData.eq_def, get_project_resourceData.eq_def,
      if_pos h]
    cases f <;> rfl
  · simp only [get_project_statusData.eq_def, get_project_resourceData.eq_def,
      if_neg h]

/-- C5: the project resource and the status tool called without a save path
return identical status metadata (project_id, status, created_at,
last_updated_at, file_name, description) for the same backing project. -/
theorem resource_tool_metadata_agree (p : Project) (f : FetchOutcome)
    (w : Except String Unit) (a : String → String) :
    (get_project_statusData p f none w a).fst.lookup "project_id" =
      (get_project_resourceData p f).lookup "project_id" ∧
    (get_project_statusData p f none w a).fst.lookup "status" =
      (get_project_resourceData p f).lookup "status" ∧
    (get_project_statusData p f none w a).fst.lookup "created_at" =
      (get_project_resourceData p f).lookup "created_at" ∧
    (get_project_statusData p f none w a).fst.lookup "last_updated_at" =
      (get_project_resourceData p f).lookup "last_updated_at" ∧
    (get_project_statusData p f none w a).fst.lookup "file_name" =
      (get_project_resourceData p f).lookup "file_name" ∧
    (get_project_statusData p f none w a).fst.lookup "description" =
      (get_project_resourceData p f).lookup "description" := by
  rw [statusData_save_none p f w a]
  exact ⟨rfl, rfl, rfl, rfl, rfl, rfl⟩

/-- C6: the status tool called with a save path on a COMPLETE project whose
retrieval yields t and whose save write succeeds writes exactly one file, at
the save path with content t; that content equals the returned solution
field, and the response carries a saved-to field with the absolute form of
the path. -/
theorem save_solution_writes (p : Project) (t sp : String)
    (a : String → String) (h : p.status = ProjectStatus.COMPLETE) :
    let r := get_project_statusData p (.yields t) (some sp) (Except.ok ()) a
    r.snd = [(sp, t)] ∧
    r.fst.lookup "solution" = some t ∧
    r.fst.lookup "saved_to" = some (a sp) := by
  simp only [get_project_statusData.eq_def, if_pos h]
  exact ⟨trivial, rfl, rfl⟩

/-- Witness for C6 at a concrete input. -/
theorem save_solution_writes_witness :
    (Project.mk "P1" ProjectStatus.COMPLETE (Timestamp.mk "i1" "t1")
        (Timestamp.mk "i2" "t2") "f.lean" "d").status =
      ProjectStatus.COMPLETE ∧
    (let r := get_project_statusData
        (Project.mk "P1" ProjectStatus.COMPLETE (Timestamp.mk "i1" "t1")
          (Timestamp.mk "i2" "t2") "f.lean" "d")
        (.yields "theorem foo := trivial") (some "out.lean")
        (Except.ok ()) (fun s => "/tmp/" ++ s)
     r.snd = [("out.lean", "theorem foo := trivial")] ∧
     r.fst.lookup "solution" = some "theorem foo := trivial" ∧
     r.fst.lookup "saved_to" = some "/tmp/out.lean") :=
  ⟨rfl, save_solution_writes
    (Project.mk "P1" ProjectStatus.COMPLETE (Timestamp.mk "i1" "t1")
      (Timestamp.mk "i2" "t2") "f.lean" "d")
    "theorem foo := trivial" "out.lean" (fun s => "/tmp/" ++ s) rfl⟩

/-- C7: with no save path and a client returning exactly n projects, the
listing tool returns exactly n lines joined by newlines, one per project in
the order the client returned them, each line being
`Project: ` ++ id ++ `, Status: ` ++ status ++ `, Created: ` ++ created. -/
theorem list_recent_format (projects : List Project) (n : Nat)
    (h : projects.length = n) :
    ∃ ls : List String, ls.length = n ∧
      (list_recent_projects projects none).fst =
        String.intercalate "\n" ls ∧
      List.Forall₂ (fun line p => line =
        "Project: " ++ p.project_id ++ ", Status: " ++ p.status.value ++
          ", Created: " ++ p.created_at.text) ls projects := by
  refine ⟨projects.map projectLine, ?_, rfl, ?_⟩
  · rw [List.length_map, h]
  · rw [List.forall₂_map_left_iff]
    exact List.forall₂_same.mpr (fun p _ => rfl)

/-- Witness for C7 at a concrete two-project input. -/
theorem list_recent_format_witness :
    (([Project.mk "A" ProjectStatus.RUNNING (Timestamp.mk "i1" "c1")
        (Timestamp.mk "i2" "u1") "f1" "d1",
       Project.mk "B" ProjectStatus.COMPLETE (Timestamp.mk "i3" "c2")
        (Timestamp.mk "i4" "u2") "f2" "d2"] : List Project).length = 2) ∧
    (∃ ls : List String, ls.length = 2 ∧
      (list_recent_projects
        [Project.mk "A" ProjectStatus.RUNNING (Timestamp.mk "i1" "c1")
          (Timestamp.mk "i2" "u1") "f1" "d1",
         Project.mk "B" ProjectStatus.COMPLETE (Timestamp.mk "i3" "c2")
          (Timestamp.mk "i4" "u2") "f2" "d2"] none).fst =
        String.intercalate "\n" ls ∧
      List.Forall₂ (fun line p => line =
        "Project: " ++ p.project_id ++ ", Status: " ++ p.status.value ++
          ", Created: " ++ p.created_at.text) ls
        [Project.mk "A" ProjectStatus.RUNNING (Timestamp.mk "i1" "c1")
          (Timestamp.mk "i2" "u1") "f1" "d1",
         Project.mk "B" ProjectStatus.COMPLETE (Timestamp.mk "i3" "c2")
          (Timestamp.mk "i4" "u2") "f2" "d2"]) :=
  ⟨rfl, list_recent_format
    [Project.mk "A" ProjectStatus.RUNNING (Timestamp.mk "i1" "c1")
      (Timestamp.mk "i2" "u1") "f1" "d1",
     Project.mk "B" ProjectStatus.COMPLETE (Timestamp.mk "i3" "c2")
      (Timestamp.mk "i4" "u2") "f2" "d2"] 2 rfl⟩

/-- C9: for the status tool and the project resource, when the project is
COMPLETE but retrieval completes without raising and without producing the
output file, the response is exactly the status metadata: no solution, no
solution error and no saved-to field; no file is written and the call does
not raise. -/
theorem noop_retrieval_metadata_only (p : Project) (save : Option String)
    (w : Except String Unit) (a : String → String)
    (h : p.status = ProjectStatus.COMPLETE) :
    (get_project_statusData p .noop save w a).fst = baseData p ∧
    (get_project_statusData p .noop save w a).snd = [] ∧
    (get_project_statusData p .noop save w a).fst.lookup "solution" = none ∧
    (get_project_statusData p .noop save w a).fst.lookup
      "solution_error" = none ∧
    (get_project_statusData p .noop save w a).fst.lookup "saved_to" = none ∧
    get_project_resourceData p .noop = baseData p ∧
    (get_project_resourceData p .noop).lookup "solution" = none ∧
    (get_project_resourceData p .noop).lookup "solution_error" = none := by
  simp only [get_project_statusData.eq_def, get_project_resourceData.eq_def,
    if_pos h]
  exact ⟨trivial, trivial, rfl, rfl, rfl, trivial, rfl, rfl⟩

/-- Witness for C9 at a concrete input. -/
theorem noop_retrieval_metadata_only_witness :
    (Project.mk "P1" ProjectStatus.COMPLETE (Timestamp.mk "i1" "t1")
        (Timestamp.mk "i2" "t2") "f.lean" "d").status =
      ProjectStatus.COMPLETE ∧
    ((get_project_statusData
        (Project.mk "P1" ProjectStatus.COMPLETE (Timestamp.mk "i1" "t1")
          (Timestamp.mk "i2" "t2") "f.lean" "d")
        .noop (some "out.lean") (Except.ok ()) id).fst =
      baseData (Project.mk "P1" ProjectStatus.COMPLETE (Timestamp.mk "i1" "t1")
        (Timestamp.mk "i2" "t2") "f.lean" "d") ∧
     (get_project_statusData
        (Project.mk "P1" ProjectStatus.COMPLETE (Timestamp.mk "i1" "t1")
          (Timestamp.mk "i2" "t2") "f.lean" "d")
        .noop (some "out.lean") (Except.ok ()) id).snd = [] ∧
     (get_project_statusData
        (Project.mk "P1" ProjectStatus.COMPLETE (Timestamp.mk "i1" "t1")
          (Timestamp.mk "i2" "t2") "f.lean" "d")
        .noop (some "out.lean") (Except.ok ()) id).fst.lookup
        "solution" = none ∧
     (get_project_statusData
        (Project.mk "P1" ProjectStatus.COMPLETE (Timestamp.mk "i1" "t1")
          (Timestamp.mk "i2" "t2") "f.lean" "d")
        .noop (some "out.lean") (Except.ok ()) id).fst.lookup
        "solution_error" = none ∧
     (get_project_statusData
        (Project.mk "P1" ProjectStatus.COMPLETE (Timestamp.mk "i1" "t1")
          (Timestamp.mk "i2" "t2") "f.lean" "d")
        .noop (some "out.lean") (Except.ok ()) id).fst.lookup
        "saved_to" = none ∧
     get_project_resourceData
        (Project.mk "P1" ProjectStatus.COMPLETE (Timestamp.mk "i1" "t1")
          (Timestamp.mk "i2" "t2") "f.lean" "d") .noop =
      baseData (Project.mk "P1" ProjectStatus.COMPLETE (Timestamp.mk "i1" "t1")
        (Timestamp.mk "i2" "t2") "f.lean" "d") ∧
     (get_project_resourceData
        (Project.mk "P1" ProjectStatus.COMPLETE (Timestamp.mk "i1" "t1")
          (Timestamp.mk "i2" "t2") "f.lean" "d") .noop).lookup
        "solution" = none ∧
     (get_project_resourceData
        (Project.mk "P1" ProjectStatus.COMPLETE (Timestamp.mk "i1" "t1")
          (Timestamp.mk "i2" "t2") "f.lean" "d") .noop).lookup
        "solution_error" = none) :=
  ⟨rfl, noop_retrieval_metadata_only
    (Project.mk "P1" ProjectStatus.COMPLETE (Timestamp.mk "i1" "t1")
      (Timestamp.mk "i2" "t2") "f.lean" "d")
    (some "out.lean") (Except.ok ()) id rfl⟩

/-- C10: when retrieval yields t but the write to the save path fails with
message m, the call does not raise: the response keeps the solution field
equal to t, additionally carries a solution error field equal to m, has no
saved-to field, and no persistent file write is recorded. -/
theorem save_write_failure_degrades (p : Project) (t sp m : String)
    (a : String → String) (h : p.status = ProjectStatus.COMPLETE) :
    let r := get_project_statusData p (.yields t) (some sp)
      (Except.error m) a
    r.fst.lookup "solution" = some t ∧
    r.fst.lookup "solution_error" = some m ∧
    r.fst.lookup "saved_to" = none ∧
    r.snd = [] := by
  simp only [get_project_statusData.eq_def, if_pos h]
  exact ⟨rfl, rfl, rfl, trivial⟩

/-- Witness for C10 at a concrete input. -/
theorem save_write_failure_degrades_witness :
    (Project.mk "P1" ProjectStatus.COMPLETE (Timestamp.mk "i1" "t1")
        (Timestamp.mk "i2" "t2") "f.lean" "d").status =
      ProjectStatus.COMPLETE ∧
    (let r := get_project_statusData
        (Project.mk "P1" ProjectStatus.COMPLETE (Timestamp.mk "i1" "t1")
          (Timestamp.mk "i2" "t2") "f.lean" "d")
        (.yields "theorem foo := trivial") (some "out.lean")
        (Except.error "disk full") id
     r.fst.lookup "solution" = some "theorem foo := trivial" ∧
     r.fst.lookup "solution_error" = some "disk full" ∧
     r.fst.lookup "saved_to" = none ∧
     r.snd = []) :=
  ⟨rfl, save_write_failure_degrades
    (Project.mk "P1" ProjectStatus.COMPLETE (Timestamp.mk "i1" "t1")
      (Timestamp.mk "i2" "t2") "f.lean" "d")
    "theorem foo := trivial" "out.lean" "disk full" id rfl⟩

end Aristotle
